import Mathlib

/-!
Verification of the event-driven consistency core of the Ticketing-Microservices
repository: the optimistic-concurrency version check used by event listeners,
the order/ticket state-machine guards, and the payments charge-creation route.

The `onTicketUpdated` handler is embedded from the TicketUpdatedListener
excerpt quoted in docs/ARCH_REVIEW.md (findOne by `_id` and `version - 1`,
throw on miss so that the bus redelivers, apply and acknowledge on match;
the mongoose-update-if-current plugin increments `version` by one on save).
The payments route is embedded from payments/src/routes/new.ts.
-/

/-- A versioned ticket replica document (the orders-service read model of a
ticket, kept in sync solely by TicketCreated/TicketUpdated events). -/
structure TicketReplica where
  id : String
  title : String
  price : Nat
  version : Nat
deriving DecidableEq

/-- Payload of a TicketUpdated event: `version` is the authoritative entity's
version after the mutation the event announces. -/
structure TicketUpdatedData where
  id : String
  title : String
  price : Nat
  version : Nat
deriving DecidableEq

/-- Applying the update carried by a TicketUpdated event to a replica row:
`set({title, price})` followed by `save()`, where the
mongoose-update-if-current plugin increments the version by exactly one. -/
def applyTicketUpdate (t : TicketReplica) (d : TicketUpdatedData) : TicketReplica :=
  { t with title := d.title, price := d.price, version := t.version + 1 }

/-- The TicketUpdatedListener handler (embedded from the
docs/ARCH_REVIEW.md excerpt of
orders/src/events/listeners/ticket-updated-listener.ts).  The store is a
collection keyed by `_id`; `findOne({_id: data.id, version: data.version - 1})`
misses both when the row is absent and when the version does not match, in
which case the handler throws ("Ticket not found") and the message is left
unacknowledged for redelivery.  The returned Bool is the acknowledgement flag.
The version comparison is over Int, matching JavaScript arithmetic on
`data.version - 1`. -/
def onTicketUpdated (db : String → Option TicketReplica) (d : TicketUpdatedData) :
    (String → Option TicketReplica) × Bool :=
  match db d.id with
  | some t =>
      if (t.version : Int) = (d.version : Int) - 1 then
        (fun i => if i = d.id then some (applyTicketUpdate t d) else db i, true)
      else
        (db, false)
  | none => (db, false)

/-- The replica store after a whole sequence of TicketUpdated deliveries,
in delivery order (duplicates and out-of-order deliveries included). -/
def applyTicketEvents (db : String → Option TicketReplica)
    (es : List TicketUpdatedData) : String → Option TicketReplica :=
  es.foldl (fun s e => (onTicketUpdated s e).1) db

/-- An authoritative ticket document in the tickets service: `orderId = none`
means the ticket is available, `orderId = some a` means it is reserved by
order `a`. -/
structure CatalogTicket where
  id : String
  price : Nat
  orderId : Option String
  version : Nat
deriving DecidableEq

/-- Payload of an OrderCancelled event: `id` is the cancelled order's id,
`ticketId` the ticket it had reserved. -/
structure OrderCancelledData where
  id : String
  version : Nat
  ticketId : String
deriving DecidableEq

/-- Modelled from the spec: the tickets-service OrderCancelledListener
(events/listeners/order-cancelled-listener.ts is not part of the snapshot;
only its registration in tickets/src/index.ts is).  Spec 4.5: "reserved(orderId)
--(OrderCancelled with matching orderId)--> available.  A cancellation
referencing a non-matching orderId is rejected — it indicates the ticket was
already re-reserved and must not be released."  The Bool reports whether the
reservation was released. -/
def onOrderCancelled (t : CatalogTicket) (d : OrderCancelledData) :
    CatalogTicket × Bool :=
  match t.orderId with
  | some a =>
      if a = d.id then
        ({ t with orderId := none, version := t.version + 1 }, true)
      else
        (t, false)
  | none => (t, false)

/-- Order lifecycle status, from the shared OrderStatus enum. -/
inductive OrderStatus where
  | Created
  | AwaitingPayment
  | Complete
  | Cancelled
deriving DecidableEq

/-- An order document in the orders service. -/
structure OrderRecord where
  id : String
  status : OrderStatus
  version : Nat
deriving DecidableEq

/-- The ExpirationCompleteListener handler on an order.  The Complete guard
(`if (order.status === OrderStatus.Complete) return msg.ack()`) is embedded
from the docs/ARCH_REVIEW.md excerpt of
orders/src/events/listeners/expiration-complete-listener.ts.  Modelled from
the spec for the remaining branches: a terminal Cancelled order is an
acknowledged no-op (spec 4.5: any transition attempted from Complete or
Cancelled is rejected as a no-op), otherwise the order is cancelled.  The
Bool is the acknowledgement flag. -/
def onExpirationComplete (o : OrderRecord) : OrderRecord × Bool :=
  if o.status = OrderStatus.Complete then (o, true)
  else if o.status = OrderStatus.Cancelled then (o, true)
  else ({ o with status := OrderStatus.Cancelled, version := o.version + 1 }, true)

/-- Modelled from the spec: the orders-service PaymentCreatedListener
(events/listeners/payment-created-listener.ts is not part of the snapshot;
only its registration in orders/src/index.ts is).  Spec 4.5: "Created
--(PaymentValidated)--> Complete; any transition attempted from Complete or
Cancelled is rejected as a no-op (idempotent), not an error."  The Bool is
the acknowledgement flag. -/
def onPaymentCreated (o : OrderRecord) : OrderRecord × Bool :=
  if o.status = OrderStatus.Complete ∨ o.status = OrderStatus.Cancelled then (o, true)
  else ({ o with status := OrderStatus.Complete, version := o.version + 1 }, true)

/-- Errors thrown by the payments charge-creation route
(payments/src/routes/new.ts). -/
inductive PaymentError where
  | NotFoundError
  | NotAuthorizedError
  | BadRequestError (msg : String)
deriving DecidableEq

/-- The payments-service order replica document (payments/src/models/order),
as read by the charge-creation route. -/
structure OrderModel where
  id : String
  userId : String
  price : Nat
  status : OrderStatus
deriving DecidableEq

/-- A payment document: `stripeId` is the external charge id returned by the
gateway. -/
structure PaymentModel where
  id : String
  orderId : String
  stripeId : String
deriving DecidableEq

/-- The argument record of a `stripe.charges.create` call, including the
idempotency key passed in the request options. -/
structure ChargeCall where
  currency : String
  amount : Nat
  source : String
  idempotencyKey : String
deriving DecidableEq

/-- Payload of a PaymentCreated event. -/
structure PaymentCreatedData where
  id : String
  orderId : String
  stripeId : String
deriving DecidableEq

/-- The externally visible operations the charge-creation route performs, in
program order.  `saveOutboxRecord` is the operation the outbox pattern of
ADR-002 would add; it is part of the vocabulary so that outbox properties are
statable about the route. -/
inductive WriteEffect where
  | stripeCharge (c : ChargeCall)
  | savePayment (p : PaymentModel)
  | saveOutboxRecord (aggregateId eventType : String)
  | publishPaymentCreated (d : PaymentCreatedData)
deriving DecidableEq

/-- The payments-service persistent collections read by the route. -/
structure PaymentsDb where
  orders : List OrderModel
  payments : List PaymentModel
deriving DecidableEq

/-- The charge-creation route handler (embedded from
payments/src/routes/new.ts).  `currentUserId` is `req.currentUser.id`,
`token`/`orderId` the request body, `chargeId` the id the gateway assigns to
the created charge and `paymentId` the id assigned to the new payment
document.  On success it returns the ordered list of side effects the handler
performs: the gateway charge, the payment save, then the event publish. -/
def createCharge (db : PaymentsDb) (currentUserId token orderId chargeId paymentId : String) :
    Except PaymentError (List WriteEffect) :=
  match db.orders.find? (fun o => o.id == orderId) with
  | none => Except.error PaymentError.NotFoundError
  | some order =>
      if order.userId ≠ currentUserId then
        Except.error PaymentError.NotAuthorizedError
      else if order.status = OrderStatus.Cancelled then
        Except.error (PaymentError.BadRequestError "Cannot pay for an cancelled order")
      else if order.status = OrderStatus.Complete then
        Except.error (PaymentError.BadRequestError "Order is already paid")
      else
        match db.payments.find? (fun p => p.orderId == orderId) with
        | some _ =>
            Except.error (PaymentError.BadRequestError "Payment already exists for this order")
        | none =>
            Except.ok
              [WriteEffect.stripeCharge
                 { currency := "usd", amount := order.price * 100,
                   source := token, idempotencyKey := order.id },
               WriteEffect.savePayment
                 { id := paymentId, orderId := orderId, stripeId := chargeId },
               WriteEffect.publishPaymentCreated
                 { id := paymentId, orderId := orderId, stripeId := chargeId }]

/-- The durable and external state touched by the route: the payments
collection, the outbox collection (aggregateId, eventType pairs), the charges
created at the gateway, and the events published on the bus. -/
structure ServiceState where
  payments : List PaymentModel
  outbox : List (String × String)
  charges : List ChargeCall
  published : List PaymentCreatedData
deriving DecidableEq

/-- Executing one side effect against the state. -/
def execEffect (s : ServiceState) : WriteEffect → ServiceState
  | WriteEffect.stripeCharge c => { s with charges := s.charges ++ [c] }
  | WriteEffect.savePayment p => { s with payments := s.payments ++ [p] }
  | WriteEffect.saveOutboxRecord a t => { s with outbox := s.outbox ++ [(a, t)] }
  | WriteEffect.publishPaymentCreated d => { s with published := s.published ++ [d] }

/-- The state at the start of a request: the persisted payments collection,
no outbox rows, and nothing yet charged or published by this request. -/
def initState (db : PaymentsDb) : ServiceState :=
  { payments := db.payments, outbox := [], charges := [], published := [] }

/-- Executing a list of side effects in order. -/
def execList (s : ServiceState) (es : List WriteEffect) : ServiceState :=
  es.foldl execEffect s

/-- The state observed if the process crashes after the first `k` side
effects of a run have completed (crash-at-any-point model). -/
def crashAfter (db : PaymentsDb) (effects : List WriteEffect) (k : Nat) : ServiceState :=
  execList (initState db) (effects.take k)

/-- The final state of a request: an error thrown by a precondition check
aborts the handler before any side effect, so the state is unchanged. -/
def runCreateCharge (db : PaymentsDb) (uid token oid cid pid : String) : ServiceState :=
  match createCharge db uid token oid cid pid with
  | Except.ok effs => execList (initState db) effs
  | Except.error _ => initState db

/-- Concrete replica row at version 0, for witnesses. -/
def tick0 : TicketReplica := { id := "t1", title := "concert", price := 20, version := 0 }

/-- Concrete replica row at version 1, for witnesses. -/
def tick1 : TicketReplica := { id := "t1", title := "concert", price := 20, version := 1 }

/-- Concrete store holding `tick0`. -/
def dbT0 : String → Option TicketReplica := fun i => if i = "t1" then some tick0 else none

/-- Concrete store holding `tick1`. -/
def dbT1 : String → Option TicketReplica := fun i => if i = "t1" then some tick1 else none

/-- Concrete TicketUpdated event at version 1. -/
def evT1 : TicketUpdatedData := { id := "t1", title := "concert", price := 25, version := 1 }

/-- Concrete TicketUpdated event at version 3. -/
def evT3 : TicketUpdatedData := { id := "t1", title := "concert", price := 30, version := 3 }

/-- Concrete catalog ticket reserved by order "A". -/
def catT : CatalogTicket := { id := "t1", price := 20, orderId := some "A", version := 3 }

/-- Concrete OrderCancelled event for order "B". -/
def cancB : OrderCancelledData := { id := "B", version := 1, ticketId := "t1" }

/-- Concrete cancelled order, for witnesses. -/
def ordCancelled : OrderRecord := { id := "o1", status := OrderStatus.Cancelled, version := 2 }

/-- Concrete completed order, for witnesses. -/
def ordComplete : OrderRecord := { id := "o2", status := OrderStatus.Complete, version := 3 }

/-- Concrete payable order in the payments-service replica. -/
def ordP : OrderModel := { id := "o1", userId := "u1", price := 20, status := OrderStatus.Created }

/-- Concrete payments database with one payable order and no payment yet. -/
def dbP : PaymentsDb := { orders := [ordP], payments := [] }

/-- Concrete payments database in which order "o1" already has a payment. -/
def dbPdup : PaymentsDb :=
  { orders := [ordP], payments := [{ id := "pay0", orderId := "o1", stripeId := "ch0" }] }

/-- The effect list of the successful run of `createCharge` on `dbP`. -/
def effsP : List WriteEffect :=
  [WriteEffect.stripeCharge
     { currency := "usd", amount := 2000, source := "tok", idempotencyKey := "o1" },
   WriteEffect.savePayment { id := "pay1", orderId := "o1", stripeId := "ch1" },
   WriteEffect.publishPaymentCreated { id := "pay1", orderId := "o1", stripeId := "ch1" }]

/-- The kinds of events delivered to the orders service that target an
existing order: a PaymentCreated event and an expiration firing. -/
inductive OrderEvt where
  | paymentCreated
  | expirationComplete
deriving DecidableEq

/-- Dispatch of an order-targeting event to its listener handler. -/
def onOrderEvent (o : OrderRecord) : OrderEvt → OrderRecord × Bool
  | OrderEvt.paymentCreated => onPaymentCreated o
  | OrderEvt.expirationComplete => onExpirationComplete o

/-- The order after a whole sequence of order-targeting deliveries, in
delivery order (duplicates and out-of-order deliveries included). -/
def applyOrderEvents (o : OrderRecord) (es : List OrderEvt) : OrderRecord :=
  es.foldl (fun s e => (onOrderEvent s e).1) o

/-- Concrete freshly created order, for witnesses. -/
def ordCreated : OrderRecord := { id := "o3", status := OrderStatus.Created, version := 0 }

/-- One delivery never decreases the version of any replica row: either the
event is rejected (store unchanged) or exactly the addressed row is updated
with its version incremented. -/
lemma onTicketUpdated_mono (db : String → Option TicketReplica)
    (e : TicketUpdatedData) (i : String) (t : TicketReplica) (h : db i = some t) :
    ∃ u, (onTicketUpdated db e).1 i = some u ∧ t.version ≤ u.version := by
  unfold onTicketUpdated
  cases h0 : db e.id with
  | none => exact ⟨t, h, le_refl _⟩
  | some t0 =>
      dsimp only
      by_cases hv : (t0.version : Int) = (e.version : Int) - 1
      · rw [if_pos hv]
        by_cases hi : i = e.id
        · subst hi
          rw [h] at h0
          injection h0 with h0
          subst h0
          exact ⟨applyTicketUpdate t e, by simp, Nat.le_succ _⟩
        · exact ⟨t, by simp [hi, h], le_refl _⟩
      · rw [if_neg hv]
        exact ⟨t, h, le_refl _⟩

/-- Version monotonicity extends to arbitrary delivery sequences. -/
lemma applyTicketEvents_mono (es : List TicketUpdatedData)
    (db : String → Option TicketReplica) (i : String) (t : TicketReplica)
    (h : db i = some t) :
    ∃ u, applyTicketEvents db es i = some u ∧ t.version ≤ u.version := by
  induction es generalizing db t with
  | nil => exact ⟨t, h, le_refl _⟩
  | cons e es ih =>
      obtain ⟨u, hu, huv⟩ := onTicketUpdated_mono db e i t h
      obtain ⟨w, hw, hwv⟩ := ih _ u hu
      exact ⟨w, hw, le_trans huv hwv⟩

/-- Each order-targeting delivery either leaves the order document untouched
(a rejected or no-op transition) or mutates it with the version incremented
by exactly one. -/
lemma onOrderEvent_step (o : OrderRecord) (e : OrderEvt) :
    (onOrderEvent o e).1 = o ∨ (onOrderEvent o e).1.version = o.version + 1 := by
  cases e with
  | paymentCreated =>
      unfold onOrderEvent onPaymentCreated
      by_cases h : o.status = OrderStatus.Complete ∨ o.status = OrderStatus.Cancelled
      · rw [if_pos h]
        exact Or.inl rfl
      · rw [if_neg h]
        exact Or.inr rfl
  | expirationComplete =>
      unfold onOrderEvent onExpirationComplete
      by_cases h1 : o.status = OrderStatus.Complete
      · rw [if_pos h1]
        exact Or.inl rfl
      · rw [if_neg h1]
        by_cases h2 : o.status = OrderStatus.Cancelled
        · rw [if_pos h2]
          exact Or.inl rfl
        · rw [if_neg h2]
          exact Or.inr rfl

/-- One order-targeting delivery never decreases the order's version. -/
lemma onOrderEvent_mono (o : OrderRecord) (e : OrderEvt) :
    o.version ≤ (onOrderEvent o e).1.version := by
  rcases onOrderEvent_step o e with h | h
  · rw [h]
  · rw [h]
    omega

/-- Order version monotonicity extends to arbitrary delivery sequences. -/
lemma applyOrderEvents_mono (es : List OrderEvt) (o : OrderRecord) :
    o.version ≤ (applyOrderEvents o es).version := by
  induction es generalizing o with
  | nil => exact le_refl _
  | cons e es ih => exact le_trans (onOrderEvent_mono o e) (ih _)

/-- Claim C1: across any sequence of delivered events — duplicates and
out-of-order deliveries included — a versioned entity's version never
decreases, and every accepted mutation increments the version by exactly 1;
stated both for the ticket replica under TicketUpdated deliveries and for
the Order entity under PaymentCreated/ExpirationComplete deliveries. -/
theorem c1_version_monotonic :
    (∀ (es : List TicketUpdatedData) (db : String → Option TicketReplica)
       (i : String) (t : TicketReplica), db i = some t →
         ∃ u, applyTicketEvents db es i = some u ∧ t.version ≤ u.version)
    ∧ (∀ (db : String → Option TicketReplica) (e : TicketUpdatedData)
       (t : TicketReplica), db e.id = some t → (onTicketUpdated db e).2 = true →
         ∃ u, (onTicketUpdated db e).1 e.id = some u ∧ u.version = t.version + 1)
    ∧ (∀ (o : OrderRecord) (es : List OrderEvt),
         o.version ≤ (applyOrderEvents o es).version)
    ∧ (∀ (o : OrderRecord) (e : OrderEvt),
         (onOrderEvent o e).1 = o ∨ (onOrderEvent o e).1.version = o.version + 1) := by
  refine ⟨applyTicketEvents_mono, ?_, fun o es => applyOrderEvents_mono es o,
    onOrderEvent_step⟩
  intro db e t h hack
  unfold onTicketUpdated at hack ⊢
  rw [h] at hack ⊢
  dsimp only at hack ⊢
  by_cases hv : (t.version : Int) = (e.version : Int) - 1
  · rw [if_pos hv]
    exact ⟨applyTicketUpdate t e, by simp, rfl⟩
  · rw [if_neg hv] at hack
    cases hack

/-- Witness for C1 at concrete entities: the store holding `tick0` receives
the version-1 update (no regression, accepted mutation lands at version 1),
and a freshly created order receives a payment event followed by an
expiration firing (no regression; the payment delivery is a no-op or a
+1 mutation). -/
theorem c1_version_monotonic_witness :
    (∃ u, applyTicketEvents dbT0 [evT1] "t1" = some u ∧ tick0.version ≤ u.version)
    ∧ (∃ u, (onTicketUpdated dbT0 evT1).1 evT1.id = some u ∧
        u.version = tick0.version + 1)
    ∧ ordCreated.version ≤ (applyOrderEvents ordCreated
        [OrderEvt.paymentCreated, OrderEvt.expirationComplete]).version
    ∧ ((onOrderEvent ordCreated OrderEvt.paymentCreated).1 = ordCreated
        ∨ (onOrderEvent ordCreated OrderEvt.paymentCreated).1.version
            = ordCreated.version + 1) :=
  ⟨c1_version_monotonic.1 [evT1] dbT0 "t1" tick0 rfl,
   c1_version_monotonic.2.1 dbT0 evT1 tick0 rfl (by decide),
   c1_version_monotonic.2.2.1 ordCreated
     [OrderEvt.paymentCreated, OrderEvt.expirationComplete],
   c1_version_monotonic.2.2.2 ordCreated OrderEvt.paymentCreated⟩

/-- Counterexample to claim C2: with the replica at version 1, redelivering
the already-applied version-1 event is stale (`event.version - 1 < local
version`), yet the handler does not acknowledge it — `findOne` misses, the
handler throws, and the message is redelivered — contradicting "acknowledges
the message as an idempotent no-op". -/
theorem c2_stale_ack_counterexample :
    dbT1 evT1.id = some tick1
    ∧ (evT1.version : Int) - 1 < (tick1.version : Int)
    ∧ ¬((onTicketUpdated dbT1 evT1).1 = dbT1 ∧ (onTicketUpdated dbT1 evT1).2 = true) := by
  refine ⟨by decide, by decide, ?_⟩
  intro hc
  have h2 := hc.2
  revert h2
  decide

/-- Claim C2 as amended: a stale event (`event.version - 1 < local version`)
leaves the replica store unchanged, but it is not acknowledged: the handler
throws and the message stays in the redelivery pool. -/
theorem c2_stale_noop_unacked (db : String → Option TicketReplica)
    (e : TicketUpdatedData) (t : TicketReplica) (h : db e.id = some t)
    (hst : (e.version : Int) - 1 < (t.version : Int)) :
    (onTicketUpdated db e).1 = db ∧ (onTicketUpdated db e).2 = false := by
  unfold onTicketUpdated
  rw [h]
  dsimp only
  have hv : ¬((t.version : Int) = (e.version : Int) - 1) := by omega
  rw [if_neg hv]
  exact ⟨rfl, rfl⟩

/-- Witness for the amended C2 at the concrete stale redelivery. -/
theorem c2_stale_noop_unacked_witness :
    (onTicketUpdated dbT1 evT1).1 = dbT1 ∧ (onTicketUpdated dbT1 evT1).2 = false :=
  c2_stale_noop_unacked dbT1 evT1 tick1 rfl (by decide)

/-- Claim C3: an event that is ahead of the replica (`event.version - 1 >
local version`) is never applied and never acknowledged — the store is
unchanged and the message stays pending — while an event whose predecessor
has been applied (`local version = event.version - 1`) is acknowledged. -/
theorem c3_ahead_event_held (db : String → Option TicketReplica)
    (e : TicketUpdatedData) (t : TicketReplica) (h : db e.id = some t) :
    ((e.version : Int) - 1 > (t.version : Int) →
      (onTicketUpdated db e).1 = db ∧ (onTicketUpdated db e).2 = false)
    ∧ ((t.version : Int) = (e.version : Int) - 1 →
      (onTicketUpdated db e).2 = true) := by
  constructor
  · intro hgt
    unfold onTicketUpdated
    rw [h]
    dsimp only
    have hv : ¬((t.version : Int) = (e.version : Int) - 1) := by omega
    rw [if_neg hv]
    exact ⟨rfl, rfl⟩
  · intro hv
    unfold onTicketUpdated
    rw [h]
    dsimp only
    rw [if_pos hv]

/-- Witness for C3: the version-3 event against the version-0 replica is held
(no state change, no acknowledgement), and the version-1 event — whose
predecessor state is present — is acknowledged. -/
theorem c3_ahead_event_held_witness :
    ((evT3.version : Int) - 1 > (tick0.version : Int) →
      (onTicketUpdated dbT0 evT3).1 = dbT0 ∧ (onTicketUpdated dbT0 evT3).2 = false)
    ∧ ((tick0.version : Int) = (evT1.version : Int) - 1 →
      (onTicketUpdated dbT0 evT1).2 = true) :=
  ⟨(c3_ahead_event_held dbT0 evT3 tick0 rfl).1,
   (c3_ahead_event_held dbT0 evT1 tick0 rfl).2⟩

/-- Claim C5: a ticket reserved by order `a` is never released by an
OrderCancelled event carrying a different order id — the ticket is returned
unchanged, still reserved by `a`, and the release flag is false. -/
theorem c5_mismatched_cancel_rejected (t : CatalogTicket) (d : OrderCancelledData)
    (a : String) (h : t.orderId = some a) (hne : d.id ≠ a) :
    (onOrderCancelled t d).1 = t ∧ (onOrderCancelled t d).1.orderId = some a
      ∧ (onOrderCancelled t d).2 = false := by
  unfold onOrderCancelled
  rw [h]
  dsimp only
  have hv : ¬(a = d.id) := fun hc => hne hc.symm
  rw [if_neg hv]
  exact ⟨rfl, h, rfl⟩

/-- Witness for C5: the ticket reserved by order "A" survives an
OrderCancelled event for order "B" untouched. -/
theorem c5_mismatched_cancel_rejected_witness :
    (onOrderCancelled catT cancB).1 = catT
      ∧ (onOrderCancelled catT cancB).1.orderId = some "A"
      ∧ (onOrderCancelled catT cancB).2 = false :=
  c5_mismatched_cancel_rejected catT cancB "A" rfl (by decide)

/-- Claim C6: an order in a terminal state (Complete or Cancelled) is left
unchanged by a later PaymentCreated event and by a later expiration firing,
and both handlers acknowledge the message (no-op, not an error). -/
theorem c6_terminal_state_noop (o : OrderRecord)
    (h : o.status = OrderStatus.Complete ∨ o.status = OrderStatus.Cancelled) :
    (onPaymentCreated o).1 = o ∧ (onPaymentCreated o).2 = true
      ∧ (onExpirationComplete o).1 = o ∧ (onExpirationComplete o).2 = true := by
  unfold onPaymentCreated onExpirationComplete
  rcases h with h | h <;> simp [h]

/-- Witness for C6 at a concrete Cancelled order and a concrete Complete
order receiving late events. -/
theorem c6_terminal_state_noop_witness :
    ((onPaymentCreated ordCancelled).1 = ordCancelled
      ∧ (onPaymentCreated ordCancelled).2 = true
      ∧ (onExpirationComplete ordCancelled).1 = ordCancelled
      ∧ (onExpirationComplete ordCancelled).2 = true)
    ∧ ((onPaymentCreated ordComplete).1 = ordComplete
      ∧ (onPaymentCreated ordComplete).2 = true
      ∧ (onExpirationComplete ordComplete).1 = ordComplete
      ∧ (onExpirationComplete ordComplete).2 = true) :=
  ⟨c6_terminal_state_noop ordCancelled (Or.inr rfl),
   c6_terminal_state_noop ordComplete (Or.inl rfl)⟩

/-- Inversion of a successful charge-creation run: every precondition held,
the found order matches the requested id, and the effect list is exactly the
gateway charge followed by the payment save followed by the event publish. -/
lemma createCharge_ok_inv (db : PaymentsDb) (uid token oid cid pid : String)
    (effs : List WriteEffect)
    (h : createCharge db uid token oid cid pid = Except.ok effs) :
    ∃ o, db.orders.find? (fun x => x.id == oid) = some o ∧ o.id = oid
      ∧ o.userId = uid
      ∧ o.status ≠ OrderStatus.Cancelled ∧ o.status ≠ OrderStatus.Complete
      ∧ db.payments.find? (fun q => q.orderId == oid) = none
      ∧ effs = [WriteEffect.stripeCharge
                  { currency := "usd", amount := o.price * 100,
                    source := token, idempotencyKey := o.id },
                WriteEffect.savePayment
                  { id := pid, orderId := oid, stripeId := cid },
                WriteEffect.publishPaymentCreated
                  { id := pid, orderId := oid, stripeId := cid }] := by
  unfold createCharge at h
  cases h1 : db.orders.find? (fun x => x.id == oid) with
  | none => rw [h1] at h; exact absurd h (by simp)
  | some o =>
      rw [h1] at h
      dsimp only at h
      by_cases hu : o.userId ≠ uid
      · rw [if_pos hu] at h; exact absurd h (by simp)
      · rw [if_neg hu] at h
        by_cases hc : o.status = OrderStatus.Cancelled
        · rw [if_pos hc] at h; exact absurd h (by simp)
        · rw [if_neg hc] at h
          by_cases hcp : o.status = OrderStatus.Complete
          · rw [if_pos hcp] at h; exact absurd h (by simp)
          · rw [if_neg hcp] at h
            cases h2 : db.payments.find? (fun q => q.orderId == oid) with
            | some p => rw [h2] at h; exact absurd h (by simp)
            | none =>
                rw [h2] at h
                dsimp only at h
                have heffs : effs = _ := (Except.ok.injEq _ _ ▸ h).symm
                refine ⟨o, rfl, ?_, not_not.mp hu, hc, hcp, rfl, ?_⟩
                · have := List.find?_some h1
                  exact eq_of_beq this
                · exact heffs

/-- Counterexample to claim C4: on a concrete payable order, the successful
charge-creation run performs the charge, the payment save and the event
publish; at the commit point of the payment mutation (crash after the first
two effects) the Payment is persisted, yet no OutboxRecord exists and the
event has not been published — the route has no outbox at all (ADR-002 is
proposed, not implemented). -/
theorem c4_outbox_counterexample :
    createCharge dbP "u1" "tok" "o1" "ch1" "pay1" = Except.ok effsP
    ∧ (crashAfter dbP effsP 2).payments
        = [{ id := "pay1", orderId := "o1", stripeId := "ch1" }]
    ∧ (crashAfter dbP effsP 2).outbox = []
    ∧ (crashAfter dbP effsP 2).published = [] := by
  refine ⟨rfl, by decide, by decide, by decide⟩

/-- Claim C4 as amended: creating a Payment is a non-atomic dual write — the
handler saves the Payment and then publishes PaymentCreated as two separate
operations and never writes an OutboxRecord, so if the process crashes after
the save commits and before the publish, the Payment persists while no
OutboxRecord and no published event exists. -/
theorem c4_dual_write_no_outbox (db : PaymentsDb) (uid token oid cid pid : String)
    (effs : List WriteEffect)
    (h : createCharge db uid token oid cid pid = Except.ok effs) :
    (∀ a t, WriteEffect.saveOutboxRecord a t ∉ effs)
    ∧ (crashAfter db effs 2).payments
        = db.payments ++ [{ id := pid, orderId := oid, stripeId := cid }]
    ∧ (crashAfter db effs 2).outbox = []
    ∧ (crashAfter db effs 2).published = [] := by
  obtain ⟨o, -, -, -, -, -, -, heffs⟩ := createCharge_ok_inv db uid token oid cid pid effs h
  subst heffs
  refine ⟨?_, ?_, ?_, ?_⟩
  · intro a t
    simp
  · simp [crashAfter, execList, execEffect, initState]
  · simp [crashAfter, execList, execEffect, initState]
  · simp [crashAfter, execList, execEffect, initState]

/-- Witness for the amended C4 at the concrete payable order. -/
theorem c4_dual_write_no_outbox_witness :
    (∀ a t, WriteEffect.saveOutboxRecord a t ∉ effsP)
    ∧ (crashAfter dbP effsP 2).payments
        = dbP.payments ++ [{ id := "pay1", orderId := "o1", stripeId := "ch1" }]
    ∧ (crashAfter dbP effsP 2).outbox = []
    ∧ (crashAfter dbP effsP 2).published = [] :=
  c4_dual_write_no_outbox dbP "u1" "tok" "o1" "ch1" "pay1" effsP rfl

/-- Claim C7: a charge-creation request for an order that already has a
Payment is rejected with the permanent duplicate error, and a successful run
preserves the invariant that payments have pairwise distinct order ids (at
most one Payment per Order). -/
theorem c7_at_most_one_payment :
    (∀ (db : PaymentsDb) (uid token oid cid pid : String)
       (o : OrderModel) (p : PaymentModel),
       db.orders.find? (fun x => x.id == oid) = some o → o.userId = uid →
       o.status ≠ OrderStatus.Cancelled → o.status ≠ OrderStatus.Complete →
       db.payments.find? (fun q => q.orderId == oid) = some p →
       createCharge db uid token oid cid pid
         = Except.error (PaymentError.BadRequestError "Payment already exists for this order"))
    ∧ (∀ (db : PaymentsDb) (uid token oid cid pid : String),
       List.Pairwise (fun p q => p.orderId ≠ q.orderId) db.payments →
       ∀ effs, createCharge db uid token oid cid pid = Except.ok effs →
         List.Pairwise (fun p q => p.orderId ≠ q.orderId)
           (execList (initState db) effs).payments) := by
  constructor
  · intro db uid token oid cid pid o p h1 hu hc hcp h5
    simp [createCharge, h1, hu, hc, hcp, h5]
  · intro db uid token oid cid pid hpw effs h
    obtain ⟨o, -, -, -, -, -, hnone, heffs⟩ :=
      createCharge_ok_inv db uid token oid cid pid effs h
    subst heffs
    simp only [execList, List.foldl, execEffect, initState]
    rw [List.pairwise_append]
    refine ⟨hpw, List.pairwise_singleton _ _, ?_⟩
    intro a ha b hb
    have hb1 : b = { id := pid, orderId := oid, stripeId := cid } := by
      simpa using hb
    subst hb1
    have := List.find?_eq_none.mp hnone a ha
    intro hcontra
    exact this (by simpa using hcontra)

/-- Witness for C7: the duplicate request on `dbPdup` is rejected with the
duplicate error, and the successful run on `dbP` leaves payments with
pairwise distinct order ids. -/
theorem c7_at_most_one_payment_witness :
    createCharge dbPdup "u1" "tok" "o1" "ch1" "pay1"
      = Except.error (PaymentError.BadRequestError "Payment already exists for this order")
    ∧ List.Pairwise (fun p q => p.orderId ≠ q.orderId)
        (execList (initState dbP) effsP).payments :=
  ⟨c7_at_most_one_payment.1 dbPdup "u1" "tok" "o1" "ch1" "pay1" ordP
      { id := "pay0", orderId := "o1", stripeId := "ch0" }
      (by decide) rfl (by decide) (by decide) (by decide),
   c7_at_most_one_payment.2 dbP "u1" "tok" "o1" "ch1" "pay1"
      (by simp [dbP]) effsP rfl⟩

/-- Claim C8: every gateway charge performed by a charge-creation run is
invoked with an idempotency key equal to the order's id (which equals the
requested orderId). -/
theorem c8_idempotency_key_is_order_id (db : PaymentsDb)
    (uid token oid cid pid : String) (effs : List WriteEffect)
    (h : createCharge db uid token oid cid pid = Except.ok effs) :
    ∀ c, WriteEffect.stripeCharge c ∈ effs → c.idempotencyKey = oid := by
  obtain ⟨o, -, hid, -, -, -, -, heffs⟩ :=
    createCharge_ok_inv db uid token oid cid pid effs h
  subst heffs
  intro c hc
  simp only [List.mem_cons, List.not_mem_nil, or_false] at hc
  rcases hc with hc | hc | hc
  · cases hc
    simpa using hid
  · cases hc
  · cases hc

/-- Witness for C8 at the concrete run on `dbP`. -/
theorem c8_idempotency_key_is_order_id_witness :
    ({ currency := "usd", amount := 2000, source := "tok",
       idempotencyKey := "o1" } : ChargeCall).idempotencyKey = "o1" :=
  c8_idempotency_key_is_order_id dbP "u1" "tok" "o1" "ch1" "pay1" effsP
    rfl _ (by decide)

/-- Claim C9: every failed precondition aborts the request with the
corresponding error before the gateway charge and before the payment save —
on every error path the persisted and external state is exactly the initial
state — and each precondition maps to its specific error: missing order,
foreign owner, cancelled order, completed order, and existing payment. -/
theorem c9_error_before_effects (db : PaymentsDb) (uid token oid cid pid : String) :
    (∀ e, createCharge db uid token oid cid pid = Except.error e →
       runCreateCharge db uid token oid cid pid = initState db)
    ∧ (db.orders.find? (fun x => x.id == oid) = none →
       createCharge db uid token oid cid pid = Except.error PaymentError.NotFoundError)
    ∧ (∀ o, db.orders.find? (fun x => x.id == oid) = some o → o.userId ≠ uid →
       createCharge db uid token oid cid pid = Except.error PaymentError.NotAuthorizedError)
    ∧ (∀ o, db.orders.find? (fun x => x.id == oid) = some o → o.userId = uid →
       o.status = OrderStatus.Cancelled →
       createCharge db uid token oid cid pid
         = Except.error (PaymentError.BadRequestError "Cannot pay for an cancelled order"))
    ∧ (∀ o, db.orders.find? (fun x => x.id == oid) = some o → o.userId = uid →
       o.status = OrderStatus.Complete →
       createCharge db uid token oid cid pid
         = Except.error (PaymentError.BadRequestError "Order is already paid"))
    ∧ (∀ o p, db.orders.find? (fun x => x.id == oid) = some o → o.userId = uid →
       o.status ≠ OrderStatus.Cancelled → o.status ≠ OrderStatus.Complete →
       db.payments.find? (fun q => q.orderId == oid) = some p →
       createCharge db uid token oid cid pid
         = Except.error (PaymentError.BadRequestError "Payment already exists for this order")) := by
  refine ⟨?_, ?_, ?_, ?_, ?_, ?_⟩
  · intro e he
    simp [runCreateCharge, he]
  · intro h1
    simp [createCharge, h1]
  · intro o h1 hu
    simp [createCharge, h1, hu]
  · intro o h1 hu hst
    simp [createCharge, h1, hu, hst]
  · intro o h1 hu hst
    simp [createCharge, h1, hu, hst]
  · intro o p h1 hu hc hcp h5
    simp [createCharge, h1, hu, hc, hcp, h5]

/-- Witness for C9: requesting payment for the absent order "oX" on `dbP`
yields NotFoundError and leaves the state untouched. -/
theorem c9_error_before_effects_witness :
    createCharge dbP "u1" "tok" "oX" "ch1" "pay1"
      = Except.error PaymentError.NotFoundError
    ∧ runCreateCharge dbP "u1" "tok" "oX" "ch1" "pay1" = initState dbP :=
  ⟨(c9_error_before_effects dbP "u1" "tok" "oX" "ch1" "pay1").2.1 (by decide),
   (c9_error_before_effects dbP "u1" "tok" "oX" "ch1" "pay1").1
     PaymentError.NotFoundError
     ((c9_error_before_effects dbP "u1" "tok" "oX" "ch1" "pay1").2.1 (by decide))⟩

/-- Claim C10: every gateway charge performed by a successful run is for the
order's price times 100 (dollars to cents) in currency "usd". -/
theorem c10_charge_amount_in_cents (db : PaymentsDb)
    (uid token oid cid pid : String) (o : OrderModel)
    (h1 : db.orders.find? (fun x => x.id == oid) = some o)
    (effs : List WriteEffect)
    (h : createCharge db uid token oid cid pid = Except.ok effs) :
    ∀ c, WriteEffect.stripeCharge c ∈ effs →
      c.amount = o.price * 100 ∧ c.currency = "usd" := by
  obtain ⟨o2, h1b, -, -, -, -, -, heffs⟩ :=
    createCharge_ok_inv db uid token oid cid pid effs h
  have ho : o2 = o := by
    rw [h1] at h1b
    injection h1b with hoo
    exact hoo.symm
  subst ho
  subst heffs
  intro c hc
  simp only [List.mem_cons, List.not_mem_nil, or_false] at hc
  rcases hc with hc | hc | hc
  · cases hc
    exact ⟨rfl, rfl⟩
  · cases hc
  · cases hc

/-- Witness for C10 at the concrete run on `dbP`: the charge is for
2000 cents (price 20 dollars) in "usd". -/
theorem c10_charge_amount_in_cents_witness :
    ({ currency := "usd", amount := 2000, source := "tok",
       idempotencyKey := "o1" } : ChargeCall).amount = ordP.price * 100
    ∧ ({ currency := "usd", amount := 2000, source := "tok",
         idempotencyKey := "o1" } : ChargeCall).currency = "usd" :=
  c10_charge_amount_in_cents dbP "u1" "tok" "o1" "ch1" "pay1" ordP
    (by decide) effsP rfl _ (by decide)
